import Mathlib

/-!
Verification development for the leanvox-node client request engine.

Shallow embedding of the retry/error-classification core:
- `src/errors.ts` (`LeanvoxError` hierarchy, `raiseForStatus`)
- `src/http.ts` (`HTTPClient.request`, `HTTPClient.requestStream` timeout,
  `HTTPClient.upload`)
- `src/client.ts` (`Leanvox.generateAsyncAndPoll`)

Network attempts are modelled as an environment `env : Nat → Outcome`
giving the outcome of each attempt index; errors are pure records instead
of thrown exceptions; delays (milliseconds, possibly fractional because a
`Retry-After` header may carry a fractional number of seconds) are rational
numbers; the `Retry-After` header is modelled as the parsed numeric value
of the header when the header is present and non-empty (the code applies
`parseFloat` to a truthy header string).
-/

namespace Leanvox

/-- The nested `error` object of a parsed JSON error body
(`src/errors.ts` reads `message`, `code`, `balance_cents`, `retry_after`). -/
structure ErrorInfo where
  message : Option String
  code : Option String
  balance_cents : Option Int
  retry_after : Option Rat
  deriving Repr, DecidableEq

/-- A parsed JSON body as accessed by `raiseForStatus`: an object that may
contain a nested `error` object. -/
structure ParsedBody where
  error : Option ErrorInfo
  deriving Repr, DecidableEq

/-- An error record as raised by the engine. The TypeScript subclass is
captured by the `name` field (each subclass constructor sets `this.name`),
plus the subclass-specific optional fields `balanceCents`
(`InsufficientBalanceError`) and `retryAfter` (`RateLimitError`). -/
structure LeanvoxError where
  name : String
  message : String
  code : String
  statusCode : Nat
  body : Option ParsedBody
  balanceCents : Option Int
  retryAfter : Option Rat
  deriving Repr, DecidableEq

/-- `new InvalidRequestError(message)` with its default code, as used by
`generateAsyncAndPoll` in `src/client.ts`. -/
def invalidRequestError (message : String) : LeanvoxError :=
  { name := "InvalidRequestError", message := message, code := "invalid_request",
    statusCode := 400, body := none, balanceCents := none, retryAfter := none }

/-- `raiseForStatus` from `src/errors.ts`, as a pure classifier returning
the error record it throws. -/
def raiseForStatus (status : Nat) (body : ParsedBody) : LeanvoxError :=
  let errData := body.error
  let message := (errData.bind fun e => e.message).getD
    ("API error (status " ++ toString status ++ ")")
  let code := (errData.bind fun e => e.code).getD "unknown"
  if status == 402 then
    { name := "InsufficientBalanceError", message := message, code := code,
      statusCode := 402, body := some body,
      balanceCents := errData.bind fun e => e.balance_cents, retryAfter := none }
  else if status == 429 then
    { name := "RateLimitError", message := message, code := code,
      statusCode := 429, body := some body, balanceCents := none,
      retryAfter := errData.bind fun e => e.retry_after }
  else if status == 400 then
    { name := "InvalidRequestError", message := message, code := code,
      statusCode := 400, body := some body, balanceCents := none, retryAfter := none }
  else if status == 401 then
    { name := "AuthenticationError", message := message, code := code,
      statusCode := 401, body := some body, balanceCents := none, retryAfter := none }
  else if status == 404 then
    { name := "NotFoundError", message := message, code := code,
      statusCode := 404, body := some body, balanceCents := none, retryAfter := none }
  else if status == 500 then
    { name := "ServerError", message := message, code := code,
      statusCode := 500, body := some body, balanceCents := none, retryAfter := none }
  else
    { name := "LeanvoxError", message := message, code := code,
      statusCode := status, body := some body, balanceCents := none, retryAfter := none }

/-- An HTTP response as observed by the retry loop: status, the parsed
`Retry-After` header when present and non-empty, the JSON body when
`response.json()` succeeds (`none` models a parse failure), and the
status text used for the fallback body. -/
structure Response where
  status : Nat
  retryAfterHeader : Option Rat
  jsonBody : Option ParsedBody
  statusText : String
  deriving Repr, DecidableEq

/-- `response.ok` of the fetch API: status in the range 200–299. -/
def Response.ok (r : Response) : Bool :=
  200 ≤ r.status && r.status < 300

/-- Outcome of one network attempt: a response, or a connection-level /
deadline fault carrying the underlying error message. -/
inductive Outcome where
  | success (r : Response)
  | transportFailure (message : String)
  deriving Repr, DecidableEq

/-- `RETRYABLE_STATUS_CODES` from `src/http.ts`. -/
def RETRYABLE_STATUS_CODES : List Nat := [429, 500, 502, 503, 504]

/-- `BACKOFF_SCHEDULE` from `src/http.ts`, in milliseconds. -/
def BACKOFF_SCHEDULE : List Rat := [1000, 2000, 4000]

/-- `BACKOFF_SCHEDULE[attempt] ?? BACKOFF_SCHEDULE[BACKOFF_SCHEDULE.length - 1]!`. -/
def backoffDelay (attempt : Nat) : Rat :=
  (BACKOFF_SCHEDULE.get? attempt).getD
    ((BACKOFF_SCHEDULE.get? (BACKOFF_SCHEDULE.length - 1)).getD 0)

/-- Delay before the next attempt when a retryable response is retried
(`src/http.ts` lines 75–78): the parsed `Retry-After` value × 1000 when the
header is present (truthy), else the backoff schedule entry. -/
def responseRetryDelay (attempt : Nat) (r : Response) : Rat :=
  match r.retryAfterHeader with
  | some v => v * 1000
  | none => backoffDelay attempt

/-- The substitute body built when `response.json()` fails on an error
response: `{ error: { message: response.statusText } }`. -/
def fallbackBody (statusText : String) : ParsedBody :=
  { error := some { message := some statusText, code := none,
                    balance_cents := none, retry_after := none } }

/-- Body handed to `raiseForStatus`: the parsed JSON body, or the fallback
body built from the status text when parsing failed. -/
def classifyBody (r : Response) : ParsedBody :=
  match r.jsonBody with
  | some b => b
  | none => fallbackBody r.statusText

/-- The `network_error` record thrown after retries are exhausted on a
transport fault. -/
def networkError (message : String) : LeanvoxError :=
  { name := "LeanvoxError", message := "Network error: " ++ message,
    code := "network_error", statusCode := 0, body := none,
    balanceCents := none, retryAfter := none }

/-- The defensive `max_retries` record thrown if the loop falls through. -/
def maxRetriesError : LeanvoxError :=
  { name := "LeanvoxError", message := "Max retries exceeded",
    code := "max_retries", statusCode := 0, body := none,
    balanceCents := none, retryAfter := none }

/-- Result of a unary request: the parsed JSON body on a 2xx response
(`none` for the undefined result of a 204), or a raised error record. -/
inductive ReqResult where
  | ok (body : Option ParsedBody)
  | err (e : LeanvoxError)
  deriving Repr, DecidableEq

/-- What an execution of the retry loop did: how many network attempts ran,
the sleeps performed between attempts (ms, in order), and the outcome. -/
structure ExecTrace where
  attemptsUsed : Nat
  sleeps : List Rat
  result : ReqResult
  deriving Repr, DecidableEq

/-- Message of the exception thrown when `response.json()` fails on a 2xx
response (its exact text is runtime-dependent; it only feeds the generic
network-error message). -/
def jsonParseFailureMsg : String := "JSON parse failure"

/-- The body of `HTTPClient.request`'s retry loop (`src/http.ts` lines
55–107), one constructor application per attempt. `fuel` counts the
attempts still allowed (`maxRetries + 1 - attempt`); `attempt` is the
0-based loop index. A `response.json()` failure on a 2xx non-204 response
throws inside the `try`, so it reaches the generic `catch` and is retried
like a transport fault. -/
def requestAttempt (maxRetries : Nat) (env : Nat → Outcome) :
    Nat → Nat → ExecTrace
  | 0, attempt =>
    { attemptsUsed := attempt, sleeps := [], result := .err maxRetriesError }
  | fuel + 1, attempt =>
    match env attempt with
    | .success r =>
      if r.ok then
        if r.status == 204 then
          { attemptsUsed := attempt + 1, sleeps := [], result := .ok none }
        else
          match r.jsonBody with
          | some b =>
            { attemptsUsed := attempt + 1, sleeps := [], result := .ok (some b) }
          | none =>
            if attempt < maxRetries then
              let t := requestAttempt maxRetries env fuel (attempt + 1)
              { attemptsUsed := t.attemptsUsed,
                sleeps := backoffDelay attempt :: t.sleeps, result := t.result }
            else
              { attemptsUsed := attempt + 1, sleeps := [],
                result := .err (networkError jsonParseFailureMsg) }
      else
        if RETRYABLE_STATUS_CODES.contains r.status && attempt < maxRetries then
          let t := requestAttempt maxRetries env fuel (attempt + 1)
          { attemptsUsed := t.attemptsUsed,
            sleeps := responseRetryDelay attempt r :: t.sleeps, result := t.result }
        else
          { attemptsUsed := attempt + 1, sleeps := [],
            result := .err (raiseForStatus r.status (classifyBody r)) }
    | .transportFailure msg =>
      if attempt < maxRetries then
        let t := requestAttempt maxRetries env fuel (attempt + 1)
        { attemptsUsed := t.attemptsUsed,
          sleeps := backoffDelay attempt :: t.sleeps, result := t.result }
      else
        { attemptsUsed := attempt + 1, sleeps := [],
          result := .err (networkError msg) }

/-- `HTTPClient.request` run against an environment of attempt outcomes:
the loop runs attempts `0..=maxRetries`. -/
def runRequest (maxRetries : Nat) (env : Nat → Outcome) : ExecTrace :=
  requestAttempt maxRetries env (maxRetries + 1) 0

/-- The body of `HTTPClient.upload`'s retry loop (`src/http.ts` lines
180–233). Differences from `requestAttempt`, faithful to the source: no
204 special case, and the retry delay for a retryable response is always
the backoff schedule — `upload` never reads the `Retry-After` header. -/
def uploadAttempt (maxRetries : Nat) (env : Nat → Outcome) :
    Nat → Nat → ExecTrace
  | 0, attempt =>
    { attemptsUsed := attempt, sleeps := [], result := .err maxRetriesError }
  | fuel + 1, attempt =>
    match env attempt with
    | .success r =>
      if r.ok then
        match r.jsonBody with
        | some b =>
          { attemptsUsed := attempt + 1, sleeps := [], result := .ok (some b) }
        | none =>
          if attempt < maxRetries then
            let t := uploadAttempt maxRetries env fuel (attempt + 1)
            { attemptsUsed := t.attemptsUsed,
              sleeps := backoffDelay attempt :: t.sleeps, result := t.result }
          else
            { attemptsUsed := attempt + 1, sleeps := [],
              result := .err (networkError jsonParseFailureMsg) }
      else
        if RETRYABLE_STATUS_CODES.contains r.status && attempt < maxRetries then
          let t := uploadAttempt maxRetries env fuel (attempt + 1)
          { attemptsUsed := t.attemptsUsed,
            sleeps := backoffDelay attempt :: t.sleeps, result := t.result }
        else
          { attemptsUsed := attempt + 1, sleeps := [],
            result := .err (raiseForStatus r.status (classifyBody r)) }
    | .transportFailure msg =>
      if attempt < maxRetries then
        let t := uploadAttempt maxRetries env fuel (attempt + 1)
        { attemptsUsed := t.attemptsUsed,
          sleeps := backoffDelay attempt :: t.sleeps, result := t.result }
      else
        { attemptsUsed := attempt + 1, sleeps := [],
          result := .err (networkError msg) }

/-- `HTTPClient.upload` run against an environment of attempt outcomes. -/
def runUpload (maxRetries : Nat) (env : Nat → Outcome) : ExecTrace :=
  uploadAttempt maxRetries env (maxRetries + 1) 0

/-- `HTTPClientOptions` from `src/http.ts` (timeout in seconds). -/
structure HTTPClientOptions where
  baseUrl : String
  apiKey : String
  timeout : Rat
  maxRetries : Nat

/-- Effective per-attempt deadline of `HTTPClient.request` in ms
(`src/http.ts` line 53): `options?.timeoutMs ?? this.timeout * 1000`. -/
def requestTimeoutMs (cfg : HTTPClientOptions) (timeoutMsOverride : Option Rat) : Rat :=
  timeoutMsOverride.getD (cfg.timeout * 1000)

/-- Effective per-attempt deadline of `HTTPClient.requestStream` in ms
(`src/http.ts` line 116): `options?.timeoutMs ?? 120_000`. -/
def requestStreamTimeoutMs (_cfg : HTTPClientOptions) (timeoutMsOverride : Option Rat) : Rat :=
  timeoutMsOverride.getD 120000

/-- Effective per-attempt deadline of `HTTPClient.upload` in ms
(`src/http.ts` line 178): `timeoutMs ?? this.timeout * 1000`. -/
def uploadTimeoutMs (cfg : HTTPClientOptions) (timeoutMsOverride : Option Rat) : Rat :=
  timeoutMsOverride.getD (cfg.timeout * 1000)

/-- `Job` as mapped by `mapJob` in `src/client.ts`. -/
structure Job where
  id : String
  status : String
  estimatedSeconds : Option Rat
  audioUrl : Option String
  error : Option String
  deriving Repr, DecidableEq

/-- The fields of `GenerateOptions` that `generateAsyncAndPoll` reads when
assembling the final result. -/
structure GenOptions where
  text : String
  model : Option String
  voice : Option String
  deriving Repr, DecidableEq

/-- The final result assembled by `makeResult` (`src/client.ts`), without
the `download`/`save` closures (pure metadata only). -/
structure GenerateResult where
  audioUrl : String
  model : String
  voice : String
  characters : Nat
  costCents : Rat
  deriving Repr, DecidableEq

/-- Outcome of `generateAsyncAndPoll`: the assembled result, a raised
error, or divergence (the supplied poll responses never reached a terminal
status — the loop in the source has no iteration cap). -/
inductive PollOutcome where
  | result (r : GenerateResult)
  | raised (e : LeanvoxError)
  | diverged
  deriving Repr, DecidableEq

/-- The `while` loop of `generateAsyncAndPoll` (`src/client.ts` lines
238–241): keep replacing the current job with the next poll response until
the status is `completed` or `failed`; `polls` is the sequence of
`getJob` responses. Returns the terminal job, or `none` if the supplied
responses run out before a terminal status. -/
def pollJob : Job → List Job → Option Job
  | current, polls =>
    if current.status == "completed" || current.status == "failed" then
      some current
    else
      match polls with
      | [] => none
      | next :: rest => pollJob next rest

/-- `generateAsyncAndPoll` (`src/client.ts` lines 234–254) after the job
has been submitted: `initial` is the job returned by the submit call and
`polls` the successive `getJob` responses. -/
def generateAsyncAndPoll (options : GenOptions) (initial : Job)
    (polls : List Job) : PollOutcome :=
  match pollJob initial polls with
  | none => .diverged
  | some current =>
    if current.status == "failed" then
      .raised (invalidRequestError (current.error.getD "Async job failed"))
    else
      .result
        { audioUrl := current.audioUrl.getD "",
          model := options.model.getD "standard",
          voice := options.voice.getD "",
          characters := options.text.length,
          costCents := 0 }

/-- An outcome that takes the retry branch of the unary loop when a retry
remains: a transport failure, or a non-2xx response with a retryable
status. -/
def isRetryableOutcome : Outcome → Bool
  | .transportFailure _ => true
  | .success r => !r.ok && RETRYABLE_STATUS_CODES.contains r.status

/-- Delay slept when outcome `o` at index `attempt` is retried by the
unary loop. -/
def outcomeRetryDelay (attempt : Nat) : Outcome → Rat
  | .transportFailure _ => backoffDelay attempt
  | .success r => responseRetryDelay attempt r

theorem requestAttempt_retry_step (maxRetries : Nat) (env : Nat → Outcome)
    (fuel attempt : Nat) (hro : isRetryableOutcome (env attempt) = true)
    (hlt : attempt < maxRetries) :
    requestAttempt maxRetries env (fuel + 1) attempt =
      { attemptsUsed := (requestAttempt maxRetries env fuel (attempt + 1)).attemptsUsed,
        sleeps := outcomeRetryDelay attempt (env attempt) ::
          (requestAttempt maxRetries env fuel (attempt + 1)).sleeps,
        result := (requestAttempt maxRetries env fuel (attempt + 1)).result } := by
  cases ho : env attempt with
  | transportFailure msg =>
    simp [requestAttempt, ho, hlt, outcomeRetryDelay]
  | success r =>
    rw [ho] at hro
    simp only [isRetryableOutcome, Bool.and_eq_true, Bool.not_eq_true'] at hro
    obtain ⟨hok, hcon⟩ := hro
    have hmem : r.status ∈ RETRYABLE_STATUS_CODES := List.mem_of_elem_eq_true hcon
    simp [requestAttempt, ho, hok, hcon, hmem, hlt, outcomeRetryDelay]

theorem requestAttempt_skip_retryable (maxRetries : Nat) (env : Nat → Outcome) :
    ∀ (i fuel attempt : Nat),
      (∀ j, j < i → isRetryableOutcome (env (attempt + j)) = true) →
      (∀ j, j < i → attempt + j < maxRetries) →
      requestAttempt maxRetries env (fuel + i) attempt =
        { attemptsUsed := (requestAttempt maxRetries env fuel (attempt + i)).attemptsUsed,
          sleeps := ((List.range i).map fun j =>
              outcomeRetryDelay (attempt + j) (env (attempt + j))) ++
            (requestAttempt maxRetries env fuel (attempt + i)).sleeps,
          result := (requestAttempt maxRetries env fuel (attempt + i)).result } := by
  intro i
  induction i with
  | zero => intro fuel attempt _ _; simp
  | succ i ih =>
    intro fuel attempt hro hlt
    have hstep := requestAttempt_retry_step maxRetries env (fuel + i) attempt
      (hro 0 (Nat.succ_pos i)) (by simpa using hlt 0 (Nat.succ_pos i))
    have hrec := ih fuel (attempt + 1)
      (fun j hj => by
        have := hro (j + 1) (Nat.succ_lt_succ hj)
        simpa [Nat.add_assoc, Nat.add_comm 1 j] using this)
      (fun j hj => by
        have := hlt (j + 1) (Nat.succ_lt_succ hj)
        omega)
    have hfuel : fuel + (i + 1) = (fuel + i) + 1 := rfl
    rw [hfuel, hstep, hrec]
    have hatt : attempt + 1 + i = attempt + (i + 1) := by omega
    refine ExecTrace.mk.injEq .. ▸ ?_
    refine ⟨by rw [hatt], ?_, by rw [hatt]⟩
    simp only [List.range_succ_eq_map, List.map_cons, List.map_map,
      List.cons_append, Nat.add_zero, hatt]
    refine congrArg₂ List.cons rfl (congrArg₂ (· ++ ·) ?_ rfl)
    apply List.map_congr_left
    intro j _
    have hj : attempt + 1 + j = attempt + (j + 1) := by omega
    simp only [Function.comp_apply, hj]

/-- Claim C10: for every streaming request issued without a per-call
timeout override the per-attempt deadline is the fixed constant 120000 ms,
independent of the client's configured timeout, while unary and multipart
requests default to the configured timeout × 1000 ms. -/
theorem C10_stream_fixed_timeout (cfg : HTTPClientOptions) :
    requestStreamTimeoutMs cfg none = 120000 ∧
    requestTimeoutMs cfg none = cfg.timeout * 1000 ∧
    uploadTimeoutMs cfg none = cfg.timeout * 1000 ∧
    ∀ cfg2 : HTTPClientOptions,
      requestStreamTimeoutMs cfg none = requestStreamTimeoutMs cfg2 none :=
  ⟨rfl, rfl, rfl, fun _ => rfl⟩

/-- Claim C6: for every (httpStatus, parsedBody) input the classifier
produces the kind bound to that status by the taxonomy — authentication
for 401, invalid_request for 400, insufficient_balance for 402 carrying
`body.error.balance_cents`, not_found for 404, rate_limit for 429 carrying
`body.error.retry_after`, server_error for 500, and a generic error
carrying the literal status for any other status. -/
theorem C6_classifier_taxonomy (status : Nat) (body : ParsedBody) :
    (status = 401 → (raiseForStatus status body).name = "AuthenticationError" ∧
      (raiseForStatus status body).statusCode = 401) ∧
    (status = 400 → (raiseForStatus status body).name = "InvalidRequestError" ∧
      (raiseForStatus status body).statusCode = 400) ∧
    (status = 402 → (raiseForStatus status body).name = "InsufficientBalanceError" ∧
      (raiseForStatus status body).statusCode = 402 ∧
      (raiseForStatus status body).balanceCents =
        (body.error.bind fun e => e.balance_cents)) ∧
    (status = 404 → (raiseForStatus status body).name = "NotFoundError" ∧
      (raiseForStatus status body).statusCode = 404) ∧
    (status = 429 → (raiseForStatus status body).name = "RateLimitError" ∧
      (raiseForStatus status body).statusCode = 429 ∧
      (raiseForStatus status body).retryAfter =
        (body.error.bind fun e => e.retry_after)) ∧
    (status = 500 → (raiseForStatus status body).name = "ServerError" ∧
      (raiseForStatus status body).statusCode = 500) ∧
    (status ≠ 400 → status ≠ 401 → status ≠ 402 → status ≠ 404 →
      status ≠ 429 → status ≠ 500 →
      (raiseForStatus status body).name = "LeanvoxError" ∧
      (raiseForStatus status body).statusCode = status) := by
  refine ⟨?_, ?_, ?_, ?_, ?_, ?_, ?_⟩
  · intro h; subst h; simp [raiseForStatus]
  · intro h; subst h; simp [raiseForStatus]
  · intro h; subst h; simp [raiseForStatus]
  · intro h; subst h; simp [raiseForStatus]
  · intro h; subst h; simp [raiseForStatus]
  · intro h; subst h; simp [raiseForStatus]
  · intro h400 h401 h402 h404 h429 h500
    simp [raiseForStatus, h400, h401, h402, h404, h429, h500]

theorem C6_classifier_taxonomy_witness :
    (raiseForStatus 402 { error := none }).name = "InsufficientBalanceError" ∧
    (raiseForStatus 402 { error := none }).statusCode = 402 ∧
    (raiseForStatus 402 { error := none }).balanceCents =
      (({ error := none } : ParsedBody).error.bind fun e => e.balance_cents) :=
  (C6_classifier_taxonomy 402 { error := none }).2.2.1 rfl

/-- Claim C9: when the async job poller reaches a terminal job, status
`failed` raises an invalid-request-kind error whose message is the job's
`error` field (defaulting to "Async job failed"), and status `completed`
returns a result whose audio reference is the job's `audioUrl`, whose
model, voice and character count come from the original generation
request, and whose cost is zero. -/
theorem C9_poller_terminal (options : GenOptions) (initial : Job)
    (polls : List Job) (current : Job)
    (hpoll : pollJob initial polls = some current) :
    (current.status = "failed" →
      generateAsyncAndPoll options initial polls =
        .raised (invalidRequestError (current.error.getD "Async job failed"))) ∧
    (current.status = "completed" → ∀ u, current.audioUrl = some u →
      generateAsyncAndPoll options initial polls =
        .result { audioUrl := u, model := options.model.getD "standard",
                  voice := options.voice.getD "",
                  characters := options.text.length, costCents := 0 }) := by
  constructor
  · intro hf
    simp [generateAsyncAndPoll, hpoll, hf]
  · intro hc u hu
    simp [generateAsyncAndPoll, hpoll, hc, hu]

theorem C9_poller_terminal_witness :
    generateAsyncAndPoll ⟨"hello", none, none⟩ ⟨"j1", "pending", none, none, none⟩
      [⟨"j1", "completed", none, some "X", none⟩] =
      .result { audioUrl := "X", model := "standard", voice := "",
                characters := "hello".length, costCents := 0 } :=
  (C9_poller_terminal ⟨"hello", none, none⟩ ⟨"j1", "pending", none, none, none⟩
      [⟨"j1", "completed", none, some "X", none⟩]
      ⟨"j1", "completed", none, some "X", none⟩ (by decide)).2 rfl "X" rfl

/-- Claim C2: for every HTTP status in {400, 401, 402, 404}, a unary call
whose first attempt returns that status performs exactly one network
attempt and raises the classified error matching that status, regardless
of maxRetries. -/
theorem C2_nonretryable_single_attempt (maxRetries : Nat) (env : Nat → Outcome)
    (r : Response) (h0 : env 0 = .success r)
    (hs : r.status = 400 ∨ r.status = 401 ∨ r.status = 402 ∨ r.status = 404) :
    (runRequest maxRetries env).attemptsUsed = 1 ∧
    (runRequest maxRetries env).result =
      .err (raiseForStatus r.status (classifyBody r)) ∧
    (r.status = 400 →
      (raiseForStatus r.status (classifyBody r)).name = "InvalidRequestError") ∧
    (r.status = 401 →
      (raiseForStatus r.status (classifyBody r)).name = "AuthenticationError") ∧
    (r.status = 402 →
      (raiseForStatus r.status (classifyBody r)).name = "InsufficientBalanceError") ∧
    (r.status = 404 →
      (raiseForStatus r.status (classifyBody r)).name = "NotFoundError") := by
  have hok : r.ok = false := by
    rcases hs with h | h | h | h <;> simp [Response.ok, h]
  have hmem : r.status ∉ RETRYABLE_STATUS_CODES := by
    rcases hs with h | h | h | h <;> simp [RETRYABLE_STATUS_CODES, h]
  refine ⟨?_, ?_, ?_, ?_, ?_, ?_⟩
  · simp [runRequest, requestAttempt, h0, hok, hmem]
  · simp [runRequest, requestAttempt, h0, hok, hmem]
  · intro h; simp [raiseForStatus, h]
  · intro h; simp [raiseForStatus, h]
  · intro h; simp [raiseForStatus, h]
  · intro h; simp [raiseForStatus, h]

theorem C2_nonretryable_single_attempt_witness :
    (runRequest 2 (fun _ => .success ⟨404, none, none, "Not Found"⟩)).attemptsUsed = 1 ∧
    (runRequest 2 (fun _ => .success ⟨404, none, none, "Not Found"⟩)).result =
      .err (raiseForStatus (Response.status ⟨404, none, none, "Not Found"⟩)
        (classifyBody ⟨404, none, none, "Not Found"⟩)) ∧
    ((Response.status ⟨404, none, none, "Not Found"⟩) = 400 →
      (raiseForStatus (Response.status ⟨404, none, none, "Not Found"⟩)
        (classifyBody ⟨404, none, none, "Not Found"⟩)).name = "InvalidRequestError") ∧
    ((Response.status ⟨404, none, none, "Not Found"⟩) = 401 →
      (raiseForStatus (Response.status ⟨404, none, none, "Not Found"⟩)
        (classifyBody ⟨404, none, none, "Not Found"⟩)).name = "AuthenticationError") ∧
    ((Response.status ⟨404, none, none, "Not Found"⟩) = 402 →
      (raiseForStatus (Response.status ⟨404, none, none, "Not Found"⟩)
        (classifyBody ⟨404, none, none, "Not Found"⟩)).name = "InsufficientBalanceError") ∧
    ((Response.status ⟨404, none, none, "Not Found"⟩) = 404 →
      (raiseForStatus (Response.status ⟨404, none, none, "Not Found"⟩)
        (classifyBody ⟨404, none, none, "Not Found"⟩)).name = "NotFoundError") :=
  C2_nonretryable_single_attempt 2 (fun _ => .success ⟨404, none, none, "Not Found"⟩)
    ⟨404, none, none, "Not Found"⟩ rfl (Or.inr (Or.inr (Or.inr rfl)))

theorem raiseForStatus_statusCode (status : Nat) (body : ParsedBody) :
    (raiseForStatus status body).statusCode = status := by
  simp only [raiseForStatus]
  repeat' split
  all_goals first | rfl | simp_all

theorem raiseForStatus_message_code (status : Nat) (body : ParsedBody) :
    (raiseForStatus status body).message =
      (body.error.bind fun e => e.message).getD
        ("API error (status " ++ toString status ++ ")") ∧
    (raiseForStatus status body).code =
      (body.error.bind fun e => e.code).getD "unknown" := by
  simp only [raiseForStatus]
  repeat' split
  all_goals exact ⟨rfl, rfl⟩

/-- Claim C1: with maxRetries = 2 and every attempt returning HTTP status
500, exactly 3 network attempts are performed and the call raises the
server_error classified from the last response, carrying httpStatus 500
rather than a generic exhaustion error. -/
theorem C1_exhaustion_classifies_last_response (resp : Nat → Response)
    (hs : ∀ i, (resp i).status = 500) :
    (runRequest 2 (fun i => .success (resp i))).attemptsUsed = 3 ∧
    (runRequest 2 (fun i => .success (resp i))).result =
      .err (raiseForStatus 500 (classifyBody (resp 2))) ∧
    (raiseForStatus 500 (classifyBody (resp 2))).name = "ServerError" ∧
    (raiseForStatus 500 (classifyBody (resp 2))).statusCode = 500 := by
  have hro : ∀ j, isRetryableOutcome (Outcome.success (resp j)) = true := by
    intro j
    simp [isRetryableOutcome, Response.ok, RETRYABLE_STATUS_CODES, hs j]
  have hkey := requestAttempt_skip_retryable 2 (fun i => .success (resp i)) 2 1 0
    (fun j _ => hro (0 + j)) (fun j hj => by omega)
  norm_num at hkey
  have hok2 : (resp 2).ok = false := by simp [Response.ok, hs 2]
  have hlast : requestAttempt 2 (fun i => .success (resp i)) 1 2 =
      { attemptsUsed := 3, sleeps := [],
        result := .err (raiseForStatus 500 (classifyBody (resp 2))) } := by
    simp [requestAttempt, hok2, hs 2]
  refine ⟨?_, ?_, ?_, ?_⟩
  · simp only [runRequest]
    norm_num
    rw [hkey, hlast]
  · simp only [runRequest]
    norm_num
    rw [hkey]
    simp [hlast]
  · simp [raiseForStatus]
  · simp [raiseForStatus]

theorem C1_exhaustion_classifies_last_response_witness :
    (runRequest 2 (fun _ => .success ⟨500, none, none, "ISE"⟩)).attemptsUsed = 3 ∧
    (runRequest 2 (fun _ => .success ⟨500, none, none, "ISE"⟩)).result =
      .err (raiseForStatus 500 (classifyBody ⟨500, none, none, "ISE"⟩)) ∧
    (raiseForStatus 500 (classifyBody ⟨500, none, none, "ISE"⟩)).name = "ServerError" ∧
    (raiseForStatus 500 (classifyBody ⟨500, none, none, "ISE"⟩)).statusCode = 500 :=
  C1_exhaustion_classifies_last_response (fun _ => ⟨500, none, none, "ISE"⟩)
    (fun _ => rfl)

/-- Claim C7: an execution whose first k attempts are TransportFailures
(with retries remaining) and whose attempt k returns a non-retryable HTTP
error status raises the classified error for that status (carrying that
status), not a network error with status 0. -/
theorem C7_mixed_failures_classified (maxRetries k : Nat) (env : Nat → Outcome)
    (r : Response)
    (hpre : ∀ j, j < k → ∃ m, env j = .transportFailure m)
    (hk : k ≤ maxRetries)
    (hr : env k = .success r)
    (hok : r.ok = false)
    (hnr : r.status ∉ RETRYABLE_STATUS_CODES) :
    (runRequest maxRetries env).result =
      .err (raiseForStatus r.status (classifyBody r)) ∧
    (raiseForStatus r.status (classifyBody r)).statusCode = r.status := by
  obtain ⟨f, hf⟩ : ∃ f, maxRetries + 1 = f + 1 + k := ⟨maxRetries - k, by omega⟩
  have hkey := requestAttempt_skip_retryable maxRetries env k (f + 1) 0
    (fun j hj => by obtain ⟨m, hm⟩ := hpre j hj; simp [isRetryableOutcome, hm])
    (fun j hj => by omega)
  have hlast : requestAttempt maxRetries env (f + 1) k =
      { attemptsUsed := k + 1, sleeps := [],
        result := .err (raiseForStatus r.status (classifyBody r)) } := by
    simp [requestAttempt, hr, hok, hnr]
  constructor
  · simp only [runRequest]
    rw [hf, hkey]
    simp [hlast]
  · exact raiseForStatus_statusCode r.status (classifyBody r)

theorem C7_mixed_failures_classified_witness :
    (runRequest 2 (fun i => if i < 2 then .transportFailure "ECONNREFUSED"
        else .success ⟨400, none, none, "Bad Request"⟩)).result =
      .err (raiseForStatus (Response.status ⟨400, none, none, "Bad Request"⟩)
        (classifyBody ⟨400, none, none, "Bad Request"⟩)) ∧
    (raiseForStatus (Response.status ⟨400, none, none, "Bad Request"⟩)
      (classifyBody ⟨400, none, none, "Bad Request"⟩)).statusCode =
      Response.status ⟨400, none, none, "Bad Request"⟩ :=
  C7_mixed_failures_classified 2 2
    (fun i => if i < 2 then .transportFailure "ECONNREFUSED"
      else .success ⟨400, none, none, "Bad Request"⟩)
    ⟨400, none, none, "Bad Request"⟩
    (fun j hj => ⟨"ECONNREFUSED", by simp [hj]⟩)
    (by omega) (by simp) (by decide) (by decide)

theorem requestAttempt_err_invariant (maxRetries : Nat) (env : Nat → Outcome) :
    ∀ (fuel attempt : Nat) (e : LeanvoxError),
      (requestAttempt maxRetries env fuel attempt).result = .err e →
      (e.statusCode = 0 ∧ (e.code = "network_error" ∨ e.code = "max_retries")) ∨
      ∃ i r, env i = .success r ∧
        e = raiseForStatus r.status (classifyBody r) ∧
        e.statusCode = r.status := by
  intro fuel
  induction fuel with
  | zero =>
    intro attempt e he
    replace he : maxRetriesError = e := by simpa [requestAttempt] using he
    subst he
    exact Or.inl ⟨rfl, Or.inr rfl⟩
  | succ fuel ih =>
    intro attempt e he
    cases ho : env attempt with
    | success r =>
      simp only [requestAttempt, ho] at he
      split at he
      · split at he
        · simp at he
        · split at he
          · simp at he
          · split at he
            · replace he : (requestAttempt maxRetries env fuel (attempt + 1)).result =
                  .err e := by simpa using he
              exact ih (attempt + 1) e he
            · replace he : networkError jsonParseFailureMsg = e := by simpa using he
              subst he
              exact Or.inl ⟨rfl, Or.inl rfl⟩
      · split at he
        · replace he : (requestAttempt maxRetries env fuel (attempt + 1)).result =
              .err e := by simpa using he
          exact ih (attempt + 1) e he
        · replace he : raiseForStatus r.status (classifyBody r) = e := by simpa using he
          subst he
          exact Or.inr ⟨attempt, r, ho, rfl, raiseForStatus_statusCode _ _⟩
    | transportFailure msg =>
      simp only [requestAttempt, ho] at he
      split at he
      · replace he : (requestAttempt maxRetries env fuel (attempt + 1)).result =
            .err e := by simpa using he
        exact ih (attempt + 1) e he
      · replace he : networkError msg = e := by simpa using he
        subst he
        exact Or.inl ⟨rfl, Or.inl rfl⟩

/-- Claim C8: every error raised by the executor satisfies the status
invariant — an HTTP-originated error carries the real HTTP status of the
response it was classified from, and network-level errors and the
defensive retry-exhaustion error carry exactly 0. -/
theorem C8_status_invariant (maxRetries : Nat) (env : Nat → Outcome)
    (e : LeanvoxError)
    (he : (runRequest maxRetries env).result = .err e) :
    (e.statusCode = 0 ∧ (e.code = "network_error" ∨ e.code = "max_retries")) ∨
    ∃ i r, env i = .success r ∧
      e = raiseForStatus r.status (classifyBody r) ∧
      e.statusCode = r.status :=
  requestAttempt_err_invariant maxRetries env (maxRetries + 1) 0 e he

theorem C8_status_invariant_witness :
    ((raiseForStatus 400 (classifyBody ⟨400, none, none, "Bad Request"⟩)).statusCode = 0 ∧
      ((raiseForStatus 400 (classifyBody ⟨400, none, none, "Bad Request"⟩)).code = "network_error" ∨
       (raiseForStatus 400 (classifyBody ⟨400, none, none, "Bad Request"⟩)).code = "max_retries")) ∨
    ∃ i r, (fun _ : Nat => Outcome.success (⟨400, none, none, "Bad Request"⟩ : Response)) i =
        .success r ∧
      raiseForStatus 400 (classifyBody ⟨400, none, none, "Bad Request"⟩) =
        raiseForStatus r.status (classifyBody r) ∧
      (raiseForStatus 400 (classifyBody ⟨400, none, none, "Bad Request"⟩)).statusCode = r.status :=
  C8_status_invariant 0 (fun _ => .success ⟨400, none, none, "Bad Request"⟩)
    (raiseForStatus 400 (classifyBody ⟨400, none, none, "Bad Request"⟩)) (by decide)

theorem runRequest_sleep_at (maxRetries i : Nat) (env : Nat → Outcome)
    (hpre : ∀ j, j < i → isRetryableOutcome (env j) = true)
    (hro : isRetryableOutcome (env i) = true)
    (hik : i < maxRetries) :
    (runRequest maxRetries env).sleeps[i]? =
      some (outcomeRetryDelay i (env i)) := by
  obtain ⟨f, hf⟩ : ∃ f, maxRetries + 1 = (f + 1) + i := ⟨maxRetries - i, by omega⟩
  have hkey := requestAttempt_skip_retryable maxRetries env i (f + 1) 0
    (fun j hj => by simpa using hpre (0 + j) (by omega))
    (fun j hj => by omega)
  have hstep := requestAttempt_retry_step maxRetries env f i
    (by simpa using hro) hik
  simp only [runRequest]
  rw [hf, hkey]
  simp only [Nat.zero_add]
  rw [hstep]
  rw [List.getElem?_append_right (by simp)]
  simp

/-- Claim C3 counterexample: at attempt 0, a retryable 500 response that
carries a `Retry-After` header with value 7 is retried after 7 × 1000 =
7000 ms, not after the fixed schedule entry 1000 ms — the unary executor
consults `Retry-After` for every retryable status, not only for 429. -/
theorem C3_counterexample :
    (runRequest 1 (fun j => if j = 0
        then .success ⟨500, some 7, none, "Internal Server Error"⟩
        else .success ⟨200, none, some { error := none }, "OK"⟩)).sleeps =
      [7000] ∧
    backoffDelay 0 = 1000 ∧ (7000 : Rat) ≠ 1000 := by
  refine ⟨?_, by norm_num [backoffDelay, BACKOFF_SCHEDULE], by norm_num⟩
  norm_num [runRequest, requestAttempt, Response.ok, RETRYABLE_STATUS_CODES,
    responseRetryDelay]

/-- Claim C3 amended: for every retry triggered by the unary executor at
attempt i, the sleep delay equals the parsed `Retry-After` header value ×
1000 ms whenever the retryable response carries the header — for every
retryable status {429, 500, 502, 503, 504}, not only 429 — and equals the
fixed schedule [1000, 2000, 4000] ms indexed by the attempt (clamped to
the last entry) when the header is absent; a TransportFailure always uses
the schedule. -/
theorem C3_retry_delay_selection (maxRetries i : Nat) (env : Nat → Outcome)
    (hpre : ∀ j, j < i → isRetryableOutcome (env j) = true)
    (hik : i < maxRetries) :
    (∀ r, env i = .success r → r.ok = false →
      RETRYABLE_STATUS_CODES.contains r.status = true →
      (runRequest maxRetries env).sleeps[i]? =
        some (match r.retryAfterHeader with
              | some v => v * 1000
              | none => backoffDelay i)) ∧
    (∀ m, env i = .transportFailure m →
      (runRequest maxRetries env).sleeps[i]? = some (backoffDelay i)) := by
  constructor
  · intro r hr hok hcon
    have hro : isRetryableOutcome (env i) = true := by
      simp [isRetryableOutcome, hr, hok, hcon, List.mem_of_elem_eq_true hcon]
    have := runRequest_sleep_at maxRetries i env hpre hro hik
    rw [this, hr]
    simp [outcomeRetryDelay, responseRetryDelay]
  · intro m hm
    have hro : isRetryableOutcome (env i) = true := by
      simp [isRetryableOutcome, hm]
    have := runRequest_sleep_at maxRetries i env hpre hro hik
    rw [this, hm]
    simp [outcomeRetryDelay]

theorem C3_retry_delay_selection_witness :
    (runRequest 2 (fun j => if j = 0
        then .success ⟨502, none, none, "Bad Gateway"⟩
        else .transportFailure "ECONNRESET")).sleeps[1]? =
      some (backoffDelay 1) :=
  (C3_retry_delay_selection 2 1
    (fun j => if j = 0
      then .success ⟨502, none, none, "Bad Gateway"⟩
      else .transportFailure "ECONNRESET")
    (fun j hj => by rw [show j = 0 by omega]; decide) (by omega)).2
    "ECONNRESET" (by decide)

theorem uploadAttempt_retry_step (maxRetries : Nat) (env : Nat → Outcome)
    (fuel attempt : Nat) (hro : isRetryableOutcome (env attempt) = true)
    (hlt : attempt < maxRetries) :
    uploadAttempt maxRetries env (fuel + 1) attempt =
      { attemptsUsed := (uploadAttempt maxRetries env fuel (attempt + 1)).attemptsUsed,
        sleeps := backoffDelay attempt ::
          (uploadAttempt maxRetries env fuel (attempt + 1)).sleeps,
        result := (uploadAttempt maxRetries env fuel (attempt + 1)).result } := by
  cases ho : env attempt with
  | transportFailure msg =>
    simp [uploadAttempt, ho, hlt]
  | success r =>
    rw [ho] at hro
    simp only [isRetryableOutcome, Bool.and_eq_true, Bool.not_eq_true'] at hro
    obtain ⟨hok, hcon⟩ := hro
    have hmem : r.status ∈ RETRYABLE_STATUS_CODES := List.mem_of_elem_eq_true hcon
    simp [uploadAttempt, ho, hok, hcon, hmem, hlt]

theorem uploadAttempt_skip_retryable (maxRetries : Nat) (env : Nat → Outcome) :
    ∀ (i fuel attempt : Nat),
      (∀ j, j < i → isRetryableOutcome (env (attempt + j)) = true) →
      (∀ j, j < i → attempt + j < maxRetries) →
      uploadAttempt maxRetries env (fuel + i) attempt =
        { attemptsUsed := (uploadAttempt maxRetries env fuel (attempt + i)).attemptsUsed,
          sleeps := ((List.range i).map fun j => backoffDelay (attempt + j)) ++
            (uploadAttempt maxRetries env fuel (attempt + i)).sleeps,
          result := (uploadAttempt maxRetries env fuel (attempt + i)).result } := by
  intro i
  induction i with
  | zero => intro fuel attempt _ _; simp
  | succ i ih =>
    intro fuel attempt hro hlt
    have hstep := uploadAttempt_retry_step maxRetries env (fuel + i) attempt
      (hro 0 (Nat.succ_pos i)) (by simpa using hlt 0 (Nat.succ_pos i))
    have hrec := ih fuel (attempt + 1)
      (fun j hj => by
        have := hro (j + 1) (Nat.succ_lt_succ hj)
        simpa [Nat.add_assoc, Nat.add_comm 1 j] using this)
      (fun j hj => by
        have := hlt (j + 1) (Nat.succ_lt_succ hj)
        omega)
    have hfuel : fuel + (i + 1) = (fuel + i) + 1 := rfl
    rw [hfuel, hstep, hrec]
    have hatt : attempt + 1 + i = attempt + (i + 1) := by omega
    refine ExecTrace.mk.injEq .. ▸ ?_
    refine ⟨by rw [hatt], ?_, by rw [hatt]⟩
    simp only [List.range_succ_eq_map, List.map_cons, List.map_map,
      List.cons_append, Nat.add_zero, hatt]
    refine congrArg₂ List.cons rfl (congrArg₂ (· ++ ·) ?_ rfl)
    apply List.map_congr_left
    intro j _
    have hj : attempt + 1 + j = attempt + (j + 1) := by omega
    simp only [Function.comp_apply, hj]

theorem runUpload_sleep_at (maxRetries i : Nat) (env : Nat → Outcome)
    (hpre : ∀ j, j < i → isRetryableOutcome (env j) = true)
    (hro : isRetryableOutcome (env i) = true)
    (hik : i < maxRetries) :
    (runUpload maxRetries env).sleeps[i]? = some (backoffDelay i) := by
  obtain ⟨f, hf⟩ : ∃ f, maxRetries + 1 = (f + 1) + i := ⟨maxRetries - i, by omega⟩
  have hkey := uploadAttempt_skip_retryable maxRetries env i (f + 1) 0
    (fun j hj => by simpa using hpre (0 + j) (by omega))
    (fun j hj => by omega)
  have hstep := uploadAttempt_retry_step maxRetries env f i
    (by simpa using hro) hik
  simp only [runUpload]
  rw [hf, hkey]
  simp only [Nat.zero_add]
  rw [hstep]
  rw [List.getElem?_append_right (by simp)]
  simp

/-- Claim C4 counterexample: a multipart attempt receiving a 429 response
with a `Retry-After` header of 7 sleeps the schedule entry 1000 ms, while
the unary mode sleeps 7 × 1000 = 7000 ms on the identical outcome — the
upload loop never reads `Retry-After`, so the retry semantics are not
identical. -/
theorem C4_counterexample :
    (runUpload 1 (fun j => if j = 0
        then .success ⟨429, some 7, none, "Too Many Requests"⟩
        else .success ⟨200, none, some { error := none }, "OK"⟩)).sleeps =
      [1000] ∧
    (runRequest 1 (fun j => if j = 0
        then .success ⟨429, some 7, none, "Too Many Requests"⟩
        else .success ⟨200, none, some { error := none }, "OK"⟩)).sleeps =
      [7000] ∧
    (1000 : Rat) ≠ 7000 := by
  refine ⟨?_, ?_, by norm_num⟩
  · norm_num [runUpload, uploadAttempt, Response.ok, RETRYABLE_STATUS_CODES,
      backoffDelay, BACKOFF_SCHEDULE]
  · norm_num [runRequest, requestAttempt, Response.ok, RETRYABLE_STATUS_CODES,
      responseRetryDelay]

/-- Claim C4 amended: the multipart upload mode shares the unary loop's
retryable-status set, attempt budget and backoff schedule, but its delay
never consults `Retry-After`: for every retry triggered at attempt i —
including a 429 response carrying a `Retry-After` header — the sleep delay
is the fixed schedule [1000, 2000, 4000] ms indexed by the attempt,
clamped to the last entry. -/
theorem C4_upload_delay_is_schedule (maxRetries i : Nat) (env : Nat → Outcome)
    (hpre : ∀ j, j < i → isRetryableOutcome (env j) = true)
    (hik : i < maxRetries) (r : Response) (hr : env i = .success r)
    (hok : r.ok = false)
    (hcon : RETRYABLE_STATUS_CODES.contains r.status = true) :
    (runUpload maxRetries env).sleeps[i]? = some (backoffDelay i) := by
  have hro : isRetryableOutcome (env i) = true := by
    simp [isRetryableOutcome, hr, hok, hcon, List.mem_of_elem_eq_true hcon]
  exact runUpload_sleep_at maxRetries i env hpre hro hik

theorem C4_upload_delay_is_schedule_witness :
    (runUpload 1 (fun j => if j = 0
        then .success ⟨429, some 7, none, "Too Many Requests"⟩
        else .success ⟨200, none, some { error := none }, "OK"⟩)).sleeps[0]? =
      some (backoffDelay 0) :=
  C4_upload_delay_is_schedule 1 0
    (fun j => if j = 0
      then .success ⟨429, some 7, none, "Too Many Requests"⟩
      else .success ⟨200, none, some { error := none }, "OK"⟩)
    (fun j hj => absurd hj (Nat.not_lt_zero j)) (by omega)
    ⟨429, some 7, none, "Too Many Requests"⟩ rfl (by decide) (by decide)

/-- Claim C5 counterexample: with an unparsable body on a non-retryable
outcome (500, maxRetries 0), the raised error's message is the response's
statusText "Internal Server Error", not the claimed default
"API error (status 500)" — the executor substitutes
{ error: { message: statusText } }, not an empty object. The code is
"unknown" as claimed. -/
theorem C5_counterexample :
    (runRequest 0 (fun _ =>
        .success ⟨500, none, none, "Internal Server Error"⟩)).result =
      .err (raiseForStatus 500 (fallbackBody "Internal Server Error")) ∧
    (raiseForStatus 500 (fallbackBody "Internal Server Error")).message =
      "Internal Server Error" ∧
    (raiseForStatus 500 (fallbackBody "Internal Server Error")).message ≠
      "API error (status 500)" ∧
    (raiseForStatus 500 (fallbackBody "Internal Server Error")).code =
      "unknown" := by
  refine ⟨by decide, by decide, by decide, by decide⟩

/-- Claim C5 amended: the classifier never fails on a malformed or absent
body; when the body cannot be parsed the executor substitutes
{ error: { message: response.statusText } } (not an empty object) before
extraction, so the raised error's message is the response's statusText
and its code is "unknown"; the default message
"API error (status <httpStatus>)" applies only when the parsed body
carries no error.message, as for an empty object. -/
theorem C5_unparsable_body_fallback (maxRetries : Nat) (env : Nat → Outcome)
    (r : Response) (h0 : env 0 = .success r) (hok : r.ok = false)
    (hjson : r.jsonBody = none)
    (hnr : r.status ∉ RETRYABLE_STATUS_CODES) :
    (runRequest maxRetries env).result =
      .err (raiseForStatus r.status (fallbackBody r.statusText)) ∧
    (raiseForStatus r.status (fallbackBody r.statusText)).message =
      r.statusText ∧
    (raiseForStatus r.status (fallbackBody r.statusText)).code = "unknown" ∧
    ∀ status : Nat,
      (raiseForStatus status { error := none }).message =
        "API error (status " ++ toString status ++ ")" ∧
      (raiseForStatus status { error := none }).code = "unknown" := by
  have hcb : classifyBody r = fallbackBody r.statusText := by
    simp [classifyBody, hjson]
  refine ⟨?_, ?_, ?_, ?_⟩
  · rw [← hcb]
    simp [runRequest, requestAttempt, h0, hok, hnr]
  · simpa [fallbackBody] using
      (raiseForStatus_message_code r.status (fallbackBody r.statusText)).1
  · simpa [fallbackBody] using
      (raiseForStatus_message_code r.status (fallbackBody r.statusText)).2
  · intro status
    exact ⟨by simpa using (raiseForStatus_message_code status { error := none }).1,
      by simpa using (raiseForStatus_message_code status { error := none }).2⟩

theorem C5_unparsable_body_fallback_witness :
    (runRequest 2 (fun _ => .success ⟨418, none, none, "Teapot"⟩)).result =
      .err (raiseForStatus 418 (fallbackBody "Teapot")) ∧
    (raiseForStatus 418 (fallbackBody "Teapot")).message = "Teapot" ∧
    (raiseForStatus 418 (fallbackBody "Teapot")).code = "unknown" ∧
    ∀ status : Nat,
      (raiseForStatus status { error := none }).message =
        "API error (status " ++ toString status ++ ")" ∧
      (raiseForStatus status { error := none }).code = "unknown" :=
  C5_unparsable_body_fallback 2 (fun _ => .success ⟨418, none, none, "Teapot"⟩)
    ⟨418, none, none, "Teapot"⟩ rfl (by decide) rfl (by decide)

end Leanvox
